import Mathlib

/-!
Verification of the delta relay and dual-transport delivery protocol of the
websocket-poc repository, as a shallow embedding in Lean 4.

The embedding covers:
* the delta computation of the Socket.IO relay (`calculateDelta` in the relay
  source), including the full-state fallback when no cached previous snapshot
  exists;
* the per-channel snapshot cache with a 60-second TTL backed by redis
  (`GET` / `SETEX` in the publication handler) and the publication handler
  itself, including the ordering write-then-broadcast and the surrounding
  try/catch;
* the subscription registry of the relay (`socketSubscriptions`, socket.io
  rooms, the subscribe / unsubscribe / connection / disconnect handlers);
* the client transport manager of the standalone page (WebSocket with
  long-polling fallback): `ws.onopen`, `ws.onclose`, `startPolling`, the poll
  loop's success and failure paths, and `applyDelta` on the client entity
  cache.

JavaScript numbers that carry odds are modelled as rationals, scores and
timestamps as integers; JavaScript strict inequality `!==` on these values is
modelled as decidable inequality.  JavaScript objects keyed by game id are
modelled as association lists; redis keys as functions from channel names.
-/

/-- The full state of one tracked game, as published by the Go generator and
decoded by the relay (`GameState` in the Go source and in the TypeScript
clients). -/
structure GameState where
  id : String
  homeTeam : String
  awayTeam : String
  homeScore : Int
  awayScore : Int
  homeOdds : Rat
  awayOdds : Rat
  drawOdds : Rat
  lastUpdated : Int
deriving DecidableEq, Repr

/-- A delta message on the wire.  `id` and `lastUpdated` are always present;
every other field is present only when set by the producer (TypeScript
`GameDelta` has the five numeric fields optional; the full-state fallback of
the relay additionally carries the team names, which the client ignores). -/
structure GameDelta where
  id : String
  lastUpdated : Int
  homeTeam : Option String
  awayTeam : Option String
  homeScore : Option Int
  awayScore : Option Int
  homeOdds : Option Rat
  awayOdds : Option Rat
  drawOdds : Option Rat
deriving DecidableEq, Repr

/-- The relay's first-contact behaviour: with no cached previous state it
returns the full state verbatim (`return fullState` in `calculateDelta`); on
the wire that is an object carrying every field of the snapshot. -/
def fullStateAsDelta (s : GameState) : GameDelta :=
  { id := s.id
    lastUpdated := s.lastUpdated
    homeTeam := some s.homeTeam
    awayTeam := some s.awayTeam
    homeScore := some s.homeScore
    awayScore := some s.awayScore
    homeOdds := some s.homeOdds
    awayOdds := some s.awayOdds
    drawOdds := some s.drawOdds }

/-- `calculateDelta(fullState, previousState)` from the relay source.  With a
previous state it starts from `{id, lastUpdated}` and adds exactly those of
the five compared fields (`homeOdds`, `awayOdds`, `drawOdds`, `homeScore`,
`awayScore`) whose value differs (`!==`) from the previous state; the team
name fields are never compared and never added. -/
def calculateDelta (fullState : GameState) (previousState : Option GameState) : GameDelta :=
  match previousState with
  | none => fullStateAsDelta fullState
  | some prev =>
    { id := fullState.id
      lastUpdated := fullState.lastUpdated
      homeTeam := none
      awayTeam := none
      homeScore := if fullState.homeScore = prev.homeScore then none else some fullState.homeScore
      awayScore := if fullState.awayScore = prev.awayScore then none else some fullState.awayScore
      homeOdds := if fullState.homeOdds = prev.homeOdds then none else some fullState.homeOdds
      awayOdds := if fullState.awayOdds = prev.awayOdds then none else some fullState.awayOdds
      drawOdds := if fullState.drawOdds = prev.drawOdds then none else some fullState.drawOdds }

/-- The client's per-game delta application (`{...game, homeOdds: delta.homeOdds
?? game.homeOdds, ...}` in `applyDelta`): each of the five numeric fields takes
the delta's value when present and the cached value otherwise; `lastUpdated`
always takes the delta's value; `id` and the team names are kept from the
cached game (the spread copies them and the update never mentions them). -/
def applyDeltaToGame (game : GameState) (delta : GameDelta) : GameState :=
  { game with
    homeOdds := delta.homeOdds.getD game.homeOdds
    awayOdds := delta.awayOdds.getD game.awayOdds
    drawOdds := delta.drawOdds.getD game.drawOdds
    homeScore := delta.homeScore.getD game.homeScore
    awayScore := delta.awayScore.getD game.awayScore
    lastUpdated := delta.lastUpdated }

/-- Key lookup in the client entity cache (`prevGames[delta.id]`), modelled on
an association list from game id to state. -/
def lookupGame : List (String × GameState) → String → Option GameState
  | [], _ => none
  | (k, v) :: rest, key => if k = key then some v else lookupGame rest key

/-- Replacement of the entry for `key` (`{...prevGames, [delta.id]: updated}`).
JavaScript objects have unique keys; on lists with a duplicated key every
occurrence is replaced by the same updated value. -/
def updateEntry (games : List (String × GameState)) (key : String) (newGame : GameState) :
    List (String × GameState) :=
  games.map fun p => if p.1 = key then (key, newGame) else p

/-- `applyDelta` from the standalone client page: if the delta's id is not a
locally known game the cache is returned unchanged (`if (!game) return
prevGames`); otherwise only that game's entry is replaced. -/
def applyDelta (games : List (String × GameState)) (delta : GameDelta) :
    List (String × GameState) :=
  match lookupGame games delta.id with
  | none => games
  | some game => updateEntry games delta.id (applyDeltaToGame game delta)

/-- Folding a batch of deltas over the client cache in order (the
`deltas.forEach(applyDelta)` loops of the poll and batch paths). -/
def applyDeltas (games : List (String × GameState)) (deltas : List GameDelta) :
    List (String × GameState) :=
  deltas.foldl applyDelta games

/-- The sequence of deltas the relay broadcasts for an unbroken run of
publications on one channel: every publication finds the preceding one in the
cache (the claim's no-drop hypothesis: each write succeeded and no TTL
expired), so each delta is `calculateDelta` of the publication against its
predecessor. -/
def emittedDeltas (prev : GameState) : List GameState → List GameDelta
  | [] => []
  | s :: rest => calculateDelta s (some prev) :: emittedDeltas s rest

/-- The server's true final snapshot after a run of publications: the last
publication, or the initial snapshot when there is none. -/
def finalSnapshot (s0 : GameState) : List GameState → GameState
  | [] => s0
  | s :: rest => finalSnapshot s rest

/-- One entry of the relay's per-channel snapshot store: the last full state
written for the channel plus its absolute expiry instant (`SETEX` with a
60-second TTL sets expiry to the write time plus 60). -/
structure RelayCacheEntry where
  state : GameState
  expiresAt : Int
deriving DecidableEq, Repr

/-- Reading the cached previous state (`redisClient.get`): returns the stored
snapshot if the entry exists and has not expired.  A read never modifies the
store, in particular it never touches the expiry. -/
def cacheGet (cache : String → Option RelayCacheEntry) (channel : String) (now : Int) :
    Option GameState :=
  match cache channel with
  | none => none
  | some e => if now < e.expiresAt then some e.state else none

/-- Writing a snapshot (`redisClient.setEx(stateKey, 60, ...)`): overwrites the
channel's entry and resets its expiry to `now + 60`. -/
def cacheSetEx (cache : String → Option RelayCacheEntry) (channel : String)
    (s : GameState) (now : Int) : String → Option RelayCacheEntry :=
  fun c => if c = channel then some { state := s, expiresAt := now + 60 } else cache c

/-- A fan-out side effect of the relay: `io.to(channel).emit('delta', delta)`
delivers the delta to every connection in the channel's room. -/
inductive RelayEmit where
  | broadcast (channel : String) (delta : GameDelta)
deriving DecidableEq, Repr

/-- The relay's mutable state: the redis-backed snapshot store and the two
diagnostic counters. -/
structure RelayState where
  cache : String → Option RelayCacheEntry
  messagesReceived : Nat
  messagesBroadcast : Nat

/-- The relay's per-publication handler (the `subscriber.subscribe` callback).
`decoded` is the result of `JSON.parse` (`none` models a decode failure, which
the catch block turns into a logged no-op).  `writeOk` models whether the
`setEx` write succeeds; the write happens before the broadcast, so a failing
write aborts the handler through the catch block and nothing is broadcast.
On the success path the new full snapshot is stored unconditionally, with the
expiry reset to `now + 60`, whatever the computed delta contains. -/
def processMessage (st : RelayState) (channel : String) (decoded : Option GameState)
    (writeOk : Bool) (now : Int) : RelayState × List RelayEmit :=
  match decoded with
  | none => (st, [])
  | some fullGameState =>
    let received := st.messagesReceived + 1
    let previousState := cacheGet st.cache channel now
    let delta := calculateDelta fullGameState previousState
    if writeOk then
      ({ cache := cacheSetEx st.cache channel fullGameState now
         messagesReceived := received
         messagesBroadcast := st.messagesBroadcast + 1 },
       [RelayEmit.broadcast channel delta])
    else
      ({ st with messagesReceived := received }, [])

/-- The channel-id argument of a subscribe/unsubscribe request:
`valid gameIds` models a JavaScript array, `malformed` any value failing the
`Array.isArray(gameIds)` check. -/
inductive SubArg where
  | valid (gameIds : List String)
  | malformed
deriving DecidableEq, Repr

/-- Per-socket emissions of the registry handlers: the request-scoped error
(`socket.emit('error', {message})`) and the subscribe acknowledgement
(`socket.emit('subscribed', {gameIds})`). -/
inductive ServerEmit where
  | errorTo (sid : String) (message : String)
  | subscribedTo (sid : String) (gameIds : List String)
deriving DecidableEq, Repr

/-- The relay server's registry state: the connected socket ids, the
`socketSubscriptions` map (socket id to its set of subscribed channels,
`none` when the map has no entry for the id), and the socket.io rooms
(channel to the socket ids joined to it). -/
structure ServerState where
  connected : List String
  socketSubscriptions : String → Option (List String)
  rooms : String → List String

/-- Insertion into a JavaScript `Set` (`subscriptions.add(gameId)`): a no-op
when the element is already present. -/
def setAdd (l : List String) (x : String) : List String :=
  if x ∈ l then l else l ++ [x]

/-- `socket.join(gameId)`: adds the socket to the channel's room,
idempotently. -/
def roomJoin (rooms : String → List String) (channel sid : String) :
    String → List String :=
  fun c => if c = channel then setAdd (rooms channel) sid else rooms c

/-- `socket.leave(gameId)`: removes the socket from the channel's room. -/
def roomLeave (rooms : String → List String) (channel sid : String) :
    String → List String :=
  fun c => if c = channel then (rooms channel).erase sid else rooms c

/-- The `socket.on('subscribe')` handler.  A non-array argument is rejected
with a request-scoped error to the requesting socket before any state is
touched.  A valid argument dereferences the socket's subscription set
(`socketSubscriptions.get(socket.id)`) — `none` models the TypeError this
would throw if the entry were missing — then joins each channel's room and
adds it to the set, and acknowledges with `subscribed`. -/
def handleSubscribe (st : ServerState) (sid : String) (arg : SubArg) :
    Option (ServerState × List ServerEmit) :=
  match arg with
  | SubArg.malformed => some (st, [ServerEmit.errorTo sid "gameIds must be an array"])
  | SubArg.valid gameIds =>
    match st.socketSubscriptions sid with
    | none => none
    | some subs =>
      some ({ st with
              rooms := gameIds.foldl (fun r g => roomJoin r g sid) st.rooms
              socketSubscriptions := fun k =>
                if k = sid then some (gameIds.foldl setAdd subs)
                else st.socketSubscriptions k },
            [ServerEmit.subscribedTo sid gameIds])

/-- The `socket.on('unsubscribe')` handler: same malformed-argument rejection;
a valid argument leaves each channel's room and deletes it from the socket's
subscription set, with no acknowledgement. -/
def handleUnsubscribe (st : ServerState) (sid : String) (arg : SubArg) :
    Option (ServerState × List ServerEmit) :=
  match arg with
  | SubArg.malformed => some (st, [ServerEmit.errorTo sid "gameIds must be an array"])
  | SubArg.valid gameIds =>
    match st.socketSubscriptions sid with
    | none => none
    | some subs =>
      some ({ st with
              rooms := gameIds.foldl (fun r g => roomLeave r g sid) st.rooms
              socketSubscriptions := fun k =>
                if k = sid then some (gameIds.foldl List.erase subs)
                else st.socketSubscriptions k },
            [])

/-- The socket lifecycle and request events of the relay server. -/
inductive SEvent where
  | connection (sid : String)
  | subscribe (sid : String) (arg : SubArg)
  | unsubscribe (sid : String) (arg : SubArg)
  | disconnect (sid : String)
deriving DecidableEq, Repr

/-- One step of the relay server.  `io.on('connection')` creates the empty
subscription set for the socket; `socket.on('disconnect')` deletes the
socket's map entry (and socket.io removes the socket from every room).
`none` models an uncaught TypeError in a handler. -/
def serverStep (st : ServerState) (e : SEvent) : Option (ServerState × List ServerEmit) :=
  match e with
  | SEvent.connection sid =>
    some ({ st with
            connected := sid :: st.connected
            socketSubscriptions := fun k =>
              if k = sid then some [] else st.socketSubscriptions k }, [])
  | SEvent.subscribe sid arg => handleSubscribe st sid arg
  | SEvent.unsubscribe sid arg => handleUnsubscribe st sid arg
  | SEvent.disconnect sid =>
    some ({ st with
            connected := st.connected.erase sid
            socketSubscriptions := fun k =>
              if k = sid then none else st.socketSubscriptions k
            rooms := fun c => (st.rooms c).erase sid }, [])

/-- The state after an event, crashes mapped to the unchanged state (only used
to phrase trace wellformedness; under the invariant no crash occurs). -/
def serverNext (st : ServerState) (e : SEvent) : ServerState :=
  match serverStep st e with
  | none => st
  | some (st2, _) => st2

/-- Socket-lifecycle wellformedness of an event against a state: socket.io
only fires `subscribe`/`unsubscribe`/`disconnect` handlers for a currently
connected socket, and connection ids are fresh. -/
def eventOk (st : ServerState) : SEvent → Bool
  | SEvent.connection sid => !(st.connected.contains sid)
  | SEvent.subscribe sid _ => st.connected.contains sid
  | SEvent.unsubscribe sid _ => st.connected.contains sid
  | SEvent.disconnect sid => st.connected.contains sid

/-- Wellformedness of a whole event trace from a state. -/
def traceOk : ServerState → List SEvent → Bool
  | _, [] => true
  | st, e :: es => eventOk st e && traceOk (serverNext st e) es

/-- Running the server over a trace; `none` as soon as a handler crashes. -/
def runServer : ServerState → List SEvent → Option ServerState
  | st, [] => some st
  | st, e :: es =>
    match serverStep st e with
    | none => none
    | some (st2, _) => runServer st2 es

/-- The server state at process start: no sockets, empty map, empty rooms. -/
def initServerState : ServerState :=
  { connected := [], socketSubscriptions := fun _ => none, rooms := fun _ => [] }

/-- The claimed invariant: every connected socket id has an entry in the
`socketSubscriptions` map. -/
def ServerInv (st : ServerState) : Prop :=
  ∀ sid, sid ∈ st.connected → (st.socketSubscriptions sid).isSome = true

/-- Auxiliary strengthening used in the induction: the connected list also has
no duplicates (connection ids are fresh). -/
def ServerInvStrong (st : ServerState) : Prop :=
  st.connected.Nodup ∧ ServerInv st

/-- The client's connection indicator (`ConnectionType` in the standalone
page): active WebSocket push, long-polling fallback, or disconnected. -/
inductive ConnType where
  | websocket
  | polling
  | disconnected
deriving DecidableEq, Repr

/-- Protocol messages the client sends over the push connection (`ws.send` of
a subscribe or unsubscribe payload is all the WebSocket client ever sends). -/
inductive ClientOutMsg where
  | subscribe (gameIds : List String)
  | unsubscribe (gameIds : List String)
deriving DecidableEq, Repr

/-- Observable actions of the client transport manager: a message on the push
connection, the HTTP initial-state fetch (`GET /state`), issuing a long-poll
request (`POST /poll`), scheduling a push reconnect attempt after a delay
(`setTimeout(connect, delay)`), and scheduling a poll retry after a delay
(`setTimeout(poll, delay)`). -/
inductive ClientAction where
  | wsSend (msg : ClientOutMsg)
  | fetchInitialState (gameIds : List String)
  | issuePoll (gameIds : List String)
  | attemptPushConnect (delayMs : Nat)
  | schedulePollRetry (delayMs : Nat)
deriving DecidableEq, Repr

/-- Predicate on actions: an initial full-state fetch request. -/
def isInitialFetchRequest : ClientAction → Bool
  | ClientAction.fetchInitialState _ => true
  | _ => false

/-- The client transport manager's state: the connection indicator, the two
failure counters (`reconnectAttemptsRef`, `pollingFailuresRef`), the polling
flag (`pollingRef`), the subscription set and the local entity cache. -/
structure ClientState where
  connectionType : ConnType
  reconnectAttempts : Nat
  pollingFailures : Nat
  pollingActive : Bool
  subscribedGames : List String
  games : List (String × GameState)
deriving Repr

/-- `ws.onopen`: marks the transport as WebSocket, resets the reconnect
failure counter to 0 and sends the current subscription set.  Nothing else:
in particular no initial-state fetch is issued on this path. -/
def onOpen (st : ClientState) : ClientState × List ClientAction :=
  ({ st with connectionType := ConnType.websocket, reconnectAttempts := 0 },
   [ClientAction.wsSend (ClientOutMsg.subscribe st.subscribedGames)])

/-- `startPolling`: a no-op when the poll loop is already running; otherwise
marks the transport as polling, fetches the initial state for the current
subscription set and starts the long-poll loop. -/
def startPolling (st : ClientState) : ClientState × List ClientAction :=
  if st.pollingActive then (st, [])
  else
    ({ st with pollingActive := true, connectionType := ConnType.polling },
     [ClientAction.fetchInitialState st.subscribedGames,
      ClientAction.issuePoll st.subscribedGames])

/-- `ws.onclose`: marks the transport disconnected and increments the
reconnect failure counter; with fewer than 3 failures a reconnect is scheduled
after `min(1000 * 2 ^ counter, 5000)` milliseconds, at 3 or more the manager
falls back to `startPolling` and schedules no reconnect. -/
def onClose (st : ClientState) : ClientState × List ClientAction :=
  let attempts := st.reconnectAttempts + 1
  let st2 := { st with connectionType := ConnType.disconnected,
                       reconnectAttempts := attempts }
  if attempts ≥ 3 then startPolling st2
  else (st2, [ClientAction.attemptPushConnect (min (1000 * 2 ^ attempts) 5000)])

/-- A successful long-poll response: applies the batch of deltas in order,
resets the poll failure counter to 0 and immediately issues the next poll
(the loop re-checks the polling flag first). -/
def onPollSuccess (st : ClientState) (deltas : List GameDelta) :
    ClientState × List ClientAction :=
  if st.pollingActive then
    ({ st with games := applyDeltas st.games deltas, pollingFailures := 0 },
     [ClientAction.issuePoll st.subscribedGames])
  else (st, [])

/-- A failing long-poll request: increments the poll failure counter and
schedules a retry after `min(1000 * 2 ^ counter, 30000)` milliseconds, where
the counter has already been incremented — so the first consecutive failure
waits `min(1000 * 2 ^ 1, 30000) = 2000` milliseconds. -/
def onPollFailure (st : ClientState) : ClientState × List ClientAction :=
  if st.pollingActive then
    let failures := st.pollingFailures + 1
    ({ st with pollingFailures := failures },
     [ClientAction.schedulePollRetry (min (1000 * 2 ^ failures) 30000)])
  else (st, [])

/-- Removal of a game's entry from the client entity cache
(`delete newGames[gameId]` in the UI unsubscribe handler). -/
def removeGameEntry (games : List (String × GameState)) (key : String) :
    List (String × GameState) :=
  games.filter fun p => p.1 != key

/-- The UI subscribe handler of the standalone page plus the effect re-run it
triggers.  The handler adds the game to the subscription set and, when a push
connection is open, sends the subscribe message.  Because `subscribedGames`
changed, the identity of `connect` (and `startPolling`) changes and the mount
effect re-runs: its cleanup cancels any pending reconnect timer, closes any
open socket and stops the poll loop (`stopPolling` clears the polling flag
and zeroes the poll-failure counter), then `connect()` opens a fresh
WebSocket — a push-connect attempt, in whatever mode the manager was. -/
def handleSubscribeClient (st : ClientState) (gameId : String) :
    ClientState × List ClientAction :=
  ({ st with subscribedGames := setAdd st.subscribedGames gameId,
             pollingActive := false, pollingFailures := 0 },
   (if st.connectionType = ConnType.websocket
      then [ClientAction.wsSend (ClientOutMsg.subscribe [gameId])] else [])
     ++ [ClientAction.attemptPushConnect 0])

/-- The UI unsubscribe handler plus the effect re-run it triggers: removes the
game from the subscription set and from the local entity cache, sends the
unsubscribe message when a push connection is open, and — exactly as for
`handleSubscribeClient` — the re-run mount effect stops the poll loop and
opens a fresh WebSocket. -/
def handleUnsubscribeClient (st : ClientState) (gameId : String) :
    ClientState × List ClientAction :=
  ({ st with subscribedGames := st.subscribedGames.erase gameId,
             games := removeGameEntry st.games gameId,
             pollingActive := false, pollingFailures := 0 },
   (if st.connectionType = ConnType.websocket
      then [ClientAction.wsSend (ClientOutMsg.unsubscribe [gameId])] else [])
     ++ [ClientAction.attemptPushConnect 0])

/-- Events driving the client transport manager: the WebSocket callbacks, the
poll loop's outcomes, and the user-initiated subscription changes (which also
re-run the mount effect, see `handleSubscribeClient`). -/
inductive CEvent where
  | wsOpen
  | wsClose
  | pollSuccess (deltas : List GameDelta)
  | pollFailure
  | uiSubscribe (gameId : String)
  | uiUnsubscribe (gameId : String)
deriving DecidableEq, Repr

/-- One step of the client transport manager.  While the manager is in polling
mode and no subscription change intervenes there is no WebSocket (`wsRef` is
nulled in `onclose` before `startPolling`, and the under-3-failures reconnect
timer is the only other caller of `connect`), so WebSocket events cannot occur
then; they are modelled as no-ops in polling mode.  A subscription change,
however, re-runs the mount effect and re-enters `connect` in every mode. -/
def clientStep (st : ClientState) : CEvent → ClientState × List ClientAction
  | CEvent.wsOpen => if st.pollingActive then (st, []) else onOpen st
  | CEvent.wsClose => if st.pollingActive then (st, []) else onClose st
  | CEvent.pollSuccess deltas => onPollSuccess st deltas
  | CEvent.pollFailure => onPollFailure st
  | CEvent.uiSubscribe gameId => handleSubscribeClient st gameId
  | CEvent.uiUnsubscribe gameId => handleUnsubscribeClient st gameId

def c1wS : GameState :=
  { id := "game1", homeTeam := "Arsenal", awayTeam := "Chelsea",
    homeScore := 1, awayScore := 1, homeOdds := 5/2, awayOdds := 14/5,
    drawOdds := 16/5, lastUpdated := 2000 }

def c1wPrev : GameState :=
  { id := "game1", homeTeam := "Arsenal", awayTeam := "Chelsea",
    homeScore := 1, awayScore := 1, homeOdds := 23/10, awayOdds := 14/5,
    drawOdds := 16/5, lastUpdated := 1000 }

def c1cS : GameState :=
  { id := "game1", homeTeam := "Wolves", awayTeam := "Chelsea",
    homeScore := 0, awayScore := 0, homeOdds := 2, awayOdds := 3,
    drawOdds := 3, lastUpdated := 2000 }

def c1cPrev : GameState :=
  { id := "game1", homeTeam := "Arsenal", awayTeam := "Chelsea",
    homeScore := 0, awayScore := 0, homeOdds := 2, awayOdds := 3,
    drawOdds := 3, lastUpdated := 1000 }

def c2w0 : GameState :=
  { id := "game1", homeTeam := "Arsenal", awayTeam := "Chelsea",
    homeScore := 0, awayScore := 0, homeOdds := 2, awayOdds := 3,
    drawOdds := 3, lastUpdated := 1000 }

def c2w1 : GameState :=
  { id := "game1", homeTeam := "Arsenal", awayTeam := "Chelsea",
    homeScore := 1, awayScore := 0, homeOdds := 2, awayOdds := 4,
    drawOdds := 3, lastUpdated := 2000 }

def c2w2 : GameState :=
  { id := "game1", homeTeam := "Arsenal", awayTeam := "Chelsea",
    homeScore := 1, awayScore := 1, homeOdds := 3, awayOdds := 4,
    drawOdds := 2, lastUpdated := 3000 }

def c2cS0 : GameState :=
  { id := "game1", homeTeam := "Arsenal", awayTeam := "Chelsea",
    homeScore := 0, awayScore := 0, homeOdds := 2, awayOdds := 3,
    drawOdds := 3, lastUpdated := 1000 }

def c2cS1 : GameState :=
  { id := "game1", homeTeam := "Wolves", awayTeam := "Chelsea",
    homeScore := 0, awayScore := 0, homeOdds := 2, awayOdds := 3,
    drawOdds := 3, lastUpdated := 2000 }

def c9St : RelayState :=
  { cache := fun _ => none, messagesReceived := 0, messagesBroadcast := 0 }

def c9S : GameState :=
  { id := "game1", homeTeam := "Arsenal", awayTeam := "Chelsea",
    homeScore := 0, awayScore := 0, homeOdds := 2, awayOdds := 3,
    drawOdds := 3, lastUpdated := 1000 }

def c8G1 : GameState :=
  { id := "game1", homeTeam := "Arsenal", awayTeam := "Chelsea",
    homeScore := 0, awayScore := 0, homeOdds := 2, awayOdds := 3,
    drawOdds := 3, lastUpdated := 1000 }

def c8G2 : GameState :=
  { id := "game2", homeTeam := "Liverpool", awayTeam := "Man United",
    homeScore := 2, awayScore := 0, homeOdds := 2, awayOdds := 4,
    drawOdds := 4, lastUpdated := 1000 }

def c8Games : List (String × GameState) := [("game1", c8G1), ("game2", c8G2)]

def c8D : GameDelta :=
  { id := "game1", lastUpdated := 2000, homeTeam := none, awayTeam := none,
    homeScore := none, awayScore := none, homeOdds := some 3, awayOdds := none,
    drawOdds := none }

def c5St : ClientState :=
  { connectionType := ConnType.disconnected, reconnectAttempts := 2,
    pollingFailures := 0, pollingActive := false,
    subscribedGames := ["game1", "game2", "game3"], games := [] }

def c7PollingState : ClientState :=
  { connectionType := ConnType.polling, reconnectAttempts := 3,
    pollingFailures := 0, pollingActive := true,
    subscribedGames := ["game1"], games := [] }

/-- Claim C1, counterexample.  The claim counts the two team names among the
tracked fields and asserts that a delta contains a tracked field exactly when
its value changed.  For the concrete pair below the home team name changes,
yet the computed delta does not contain it: `calculateDelta` never compares or
copies team names. -/
theorem c1_counterexample :
    c1cS.homeTeam ≠ c1cPrev.homeTeam ∧
      (calculateDelta c1cS (some c1cPrev)).homeTeam = none := by
  decide

/-- Claim C1, amended.  For every pair of snapshots with the previous one
cached, the delta contains the identifier and timestamp always, and contains
one of the five tracked fields (the two scores and the three odds — not the
team names, which are never present) exactly when its value differs, carrying
the new value; every unchanged tracked field is absent. -/
theorem c1_delta_fields (s prev : GameState) :
    (calculateDelta s (some prev)).id = s.id ∧
    (calculateDelta s (some prev)).lastUpdated = s.lastUpdated ∧
    (calculateDelta s (some prev)).homeTeam = none ∧
    (calculateDelta s (some prev)).awayTeam = none ∧
    (s.homeOdds ≠ prev.homeOdds → (calculateDelta s (some prev)).homeOdds = some s.homeOdds) ∧
    (s.homeOdds = prev.homeOdds → (calculateDelta s (some prev)).homeOdds = none) ∧
    (s.awayOdds ≠ prev.awayOdds → (calculateDelta s (some prev)).awayOdds = some s.awayOdds) ∧
    (s.awayOdds = prev.awayOdds → (calculateDelta s (some prev)).awayOdds = none) ∧
    (s.drawOdds ≠ prev.drawOdds → (calculateDelta s (some prev)).drawOdds = some s.drawOdds) ∧
    (s.drawOdds = prev.drawOdds → (calculateDelta s (some prev)).drawOdds = none) ∧
    (s.homeScore ≠ prev.homeScore → (calculateDelta s (some prev)).homeScore = some s.homeScore) ∧
    (s.homeScore = prev.homeScore → (calculateDelta s (some prev)).homeScore = none) ∧
    (s.awayScore ≠ prev.awayScore → (calculateDelta s (some prev)).awayScore = some s.awayScore) ∧
    (s.awayScore = prev.awayScore → (calculateDelta s (some prev)).awayScore = none) := by
  refine ⟨rfl, rfl, rfl, rfl, ?_, ?_, ?_, ?_, ?_, ?_, ?_, ?_, ?_, ?_⟩ <;>
    intro h <;> simp [calculateDelta, h]

/-- Witness for the amended C1 at a concrete input: the home odds changed from
2.30 to 2.50 and appear in the delta with the new value; the home score did
not change and is absent. -/
theorem c1_delta_fields_witness :
    (calculateDelta c1wS (some c1wPrev)).homeOdds = some c1wS.homeOdds ∧
    (calculateDelta c1wS (some c1wPrev)).homeScore = none := by
  have h := c1_delta_fields c1wS c1wPrev
  exact ⟨h.2.2.2.2.1 (by norm_num [c1wS, c1wPrev]),
    h.2.2.2.2.2.2.2.2.2.2.2.1 (by norm_num [c1wS, c1wPrev])⟩

/-- Applying the delta computed against the cached previous snapshot to that
same previous snapshot recovers the new snapshot, provided the identifier and
the team names (which deltas never carry) did not change. -/
theorem applyDeltaToGame_calculateDelta (s prev : GameState) (hid : s.id = prev.id)
    (hht : s.homeTeam = prev.homeTeam) (hat : s.awayTeam = prev.awayTeam) :
    applyDeltaToGame prev (calculateDelta s (some prev)) = s := by
  by_cases h1 : s.homeScore = prev.homeScore <;>
    by_cases h2 : s.awayScore = prev.awayScore <;>
    by_cases h3 : s.homeOdds = prev.homeOdds <;>
    by_cases h4 : s.awayOdds = prev.awayOdds <;>
    by_cases h5 : s.drawOdds = prev.drawOdds <;>
    (cases s; cases prev; simp_all [applyDeltaToGame, calculateDelta])

/-- On a singleton cache whose key matches the delta's id, `applyDelta`
replaces the single entry. -/
theorem applyDelta_singleton (key : String) (g : GameState) (d : GameDelta)
    (h : d.id = key) :
    applyDelta [(key, g)] d = [(key, applyDeltaToGame g d)] := by
  subst h
  simp [applyDelta, lookupGame, updateEntry]

/-- Convergence of the relay/client delta pipeline on a single-entity cache:
starting from a shared initial snapshot, folding the emitted deltas over the
client cache ends in exactly the server's final snapshot, provided every
publication keeps the identifier and team names of the initial snapshot. -/
theorem convergence_aux (pubs : List GameState) : ∀ (prev : GameState),
    (∀ s ∈ pubs, s.id = prev.id ∧ s.homeTeam = prev.homeTeam ∧ s.awayTeam = prev.awayTeam) →
    applyDeltas [(prev.id, prev)] (emittedDeltas prev pubs)
      = [(prev.id, finalSnapshot prev pubs)] := by
  induction pubs with
  | nil => intro prev _; rfl
  | cons s rest ih =>
    intro prev h
    have hs := h s (by simp)
    have hrest : ∀ p ∈ rest,
        p.id = s.id ∧ p.homeTeam = s.homeTeam ∧ p.awayTeam = s.awayTeam := by
      intro p hp
      have hp2 := h p (by simp [hp])
      exact ⟨hp2.1.trans hs.1.symm, hp2.2.1.trans hs.2.1.symm, hp2.2.2.trans hs.2.2.symm⟩
    have hdid : (calculateDelta s (some prev)).id = prev.id := by
      simp [calculateDelta, hs.1]
    have hstep : applyDelta [(prev.id, prev)] (calculateDelta s (some prev))
        = [(prev.id, s)] := by
      rw [applyDelta_singleton prev.id prev _ hdid,
        applyDeltaToGame_calculateDelta s prev hs.1 hs.2.1 hs.2.2]
    have hfold : applyDeltas [(prev.id, prev)] (emittedDeltas prev (s :: rest))
        = applyDeltas [(prev.id, s)] (emittedDeltas s rest) := by
      simp [applyDeltas, emittedDeltas, hstep]
    rw [hfold]
    have hkey : ([(prev.id, s)] : List (String × GameState)) = [(s.id, s)] := by
      rw [hs.1]
    rw [hkey, ih s hrest]
    simp [finalSnapshot, hs.1]

/-- Claim C2, counterexample.  One publication that changes only the home team
name (and the timestamp) yields a delta without the team name, so the client
entry after applying it is not identical to the server's final snapshot. -/
theorem c2_counterexample :
    lookupGame (applyDeltas [(c2cS0.id, c2cS0)] (emittedDeltas c2cS0 [c2cS1])) c2cS1.id
      ≠ some c2cS1 := by
  decide

/-- Claim C2, amended.  No-loss convergence holds for every unbroken run of
publications that keeps the identifier and team names of the initial snapshot
fixed (deltas never carry team names, and an identifier change would make the
client ignore the delta): the client entry after folding the emitted deltas is
identical to the server's true final snapshot. -/
theorem c2_no_loss_convergence (s0 : GameState) (pubs : List GameState)
    (h : ∀ s ∈ pubs, s.id = s0.id ∧ s.homeTeam = s0.homeTeam ∧ s.awayTeam = s0.awayTeam) :
    lookupGame (applyDeltas [(s0.id, s0)] (emittedDeltas s0 pubs)) s0.id
      = some (finalSnapshot s0 pubs) := by
  rw [convergence_aux pubs s0 h]
  simp [lookupGame]

/-- Witness for the amended C2: two publications with score and odds changes
converge to the last published snapshot. -/
theorem c2_no_loss_convergence_witness :
    lookupGame (applyDeltas [(c2w0.id, c2w0)] (emittedDeltas c2w0 [c2w1, c2w2])) c2w0.id
      = some (finalSnapshot c2w0 [c2w1, c2w2]) :=
  c2_no_loss_convergence c2w0 [c2w1, c2w2] (by decide)

/-- Link between the handler and the emitted-delta pipeline: when the cache
holds `prev` for the channel and the write succeeds, the handler broadcasts
exactly `calculateDelta` of the publication against `prev`, and the written
snapshot is what a later read within the TTL returns. -/
theorem processMessage_cached_emit (st : RelayState) (channel : String)
    (s prev : GameState) (now : Int)
    (h : cacheGet st.cache channel now = some prev) :
    (processMessage st channel (some s) true now).2
        = [RelayEmit.broadcast channel (calculateDelta s (some prev))] ∧
    cacheGet (processMessage st channel (some s) true now).1.cache channel (now + 30)
        = some s := by
  constructor
  · simp [processMessage, h]
  · have hlt : (now + 30 : Int) < now + 60 := by omega
    simp [processMessage, cacheSetEx, cacheGet, hlt]

/-- Claim C3.  For every successfully decoded publication whose write goes
through, the handler stores the new full snapshot for the channel with the
expiry reset to `now + 60` — unconditionally: the statement quantifies over
every relay state and snapshot, so also when the computed delta carries no
tracked field beyond identifier and timestamp.  The broadcast conjunct shows
the stored value does not depend on the delta's content.  Reads (`cacheGet`)
are pure and return no modified store, so a read never resets the expiry. -/
theorem c3_cache_write_unconditional (st : RelayState) (channel : String)
    (s : GameState) (now : Int) :
    ((processMessage st channel (some s) true now).1.cache) channel
        = some { state := s, expiresAt := now + 60 } ∧
    (processMessage st channel (some s) true now).2
        = [RelayEmit.broadcast channel (calculateDelta s (cacheGet st.cache channel now))] := by
  constructor <;> simp [processMessage, cacheSetEx]

/-- Claim C9, counterexample.  On a publication whose cache write fails, the
broadcast (which the handler only reaches after the write) is skipped by the
catch block: the subscribers receive nothing at all for that publication, not
a full-snapshot delta as the claim states. -/
theorem c9_counterexample :
    (processMessage c9St "game1" (some c9S) false 0).2 = ([] : List RelayEmit) := by
  rfl

/-- Claim C9, amended.  A failing snapshot write is non-fatal: the handler
catches the error, the cache is left unchanged and the handler returns
normally, but nothing is broadcast for that publication.  A later publication
processed with no cached base (and a succeeding write) is broadcast as a
full-snapshot delta, so the degenerate full-sync behaviour only applies to
subsequent publications, never to the one whose write failed. -/
theorem c9_write_failure_nonfatal (st : RelayState) (channel : String)
    (s : GameState) (now : Int) :
    ((processMessage st channel (some s) false now).1.cache = st.cache ∧
     (processMessage st channel (some s) false now).2 = []) ∧
    (cacheGet st.cache channel now = none →
      (processMessage st channel (some s) true now).2
          = [RelayEmit.broadcast channel (fullStateAsDelta s)]) := by
  refine ⟨⟨rfl, rfl⟩, ?_⟩
  intro h
  simp [processMessage, calculateDelta, h]

/-- Witness for the amended C9: with an empty cache and a succeeding write,
the publication goes out as a full-snapshot delta. -/
theorem c9_write_failure_nonfatal_witness :
    (processMessage c9St "game1" (some c9S) true 0).2
        = [RelayEmit.broadcast "game1" (fullStateAsDelta c9S)] :=
  (c9_write_failure_nonfatal c9St "game1" c9S 0).2 rfl

/-- Unfolding of `updateEntry` on a cons cell. -/
theorem updateEntry_cons (k : String) (v : GameState) (rest : List (String × GameState))
    (key : String) (x : GameState) :
    updateEntry ((k, v) :: rest) key x
      = (if k = key then (key, x) else (k, v)) :: updateEntry rest key x := by
  simp only [updateEntry, List.map_cons]

/-- Replacing the entry for a key present in the cache makes lookup of that
key return the replacement. -/
theorem lookupGame_updateEntry_self (games : List (String × GameState))
    (key : String) (x g : GameState) (h : lookupGame games key = some g) :
    lookupGame (updateEntry games key x) key = some x := by
  induction games with
  | nil => simp [lookupGame] at h
  | cons p rest ih =>
    obtain ⟨k, v⟩ := p
    rw [updateEntry_cons]
    by_cases hk : k = key
    · rw [if_pos hk]
      simp [lookupGame]
    · rw [if_neg hk]
      simp only [lookupGame, if_neg hk] at h ⊢
      exact ih h

/-- Replacing the entry for one key leaves lookup at every other key
unchanged. -/
theorem lookupGame_updateEntry_other (games : List (String × GameState))
    (key : String) (x : GameState) (k : String) (h : k ≠ key) :
    lookupGame (updateEntry games key x) k = lookupGame games k := by
  induction games with
  | nil => simp [updateEntry, lookupGame]
  | cons p rest ih =>
    obtain ⟨k2, v⟩ := p
    rw [updateEntry_cons]
    by_cases hk : k2 = key
    · rw [if_pos hk]
      subst hk
      simp [lookupGame, Ne.symm h, ih]
    · rw [if_neg hk]
      by_cases hkk : k2 = k
      · subst hkk
        simp [lookupGame]
      · simp [lookupGame, hkk, ih]

/-- Claim C8.  Frame effect of the client's `applyDelta`: a delta for an
unknown identifier leaves the whole cache unchanged (no insertion); a delta
for a known identifier replaces only that entry, every other entry's lookup is
unchanged, and within the updated entry the identifier and team names are kept
from the cached game, `lastUpdated` is taken from the delta, and each of the
five tracked fields is taken from the delta when present there and kept from
the cached game when absent. -/
theorem c8_apply_delta_frame (games : List (String × GameState)) (d : GameDelta) :
    (lookupGame games d.id = none → applyDelta games d = games) ∧
    (∀ g, lookupGame games d.id = some g →
      lookupGame (applyDelta games d) d.id = some (applyDeltaToGame g d) ∧
      (∀ k, k ≠ d.id → lookupGame (applyDelta games d) k = lookupGame games k) ∧
      (applyDeltaToGame g d).id = g.id ∧
      (applyDeltaToGame g d).homeTeam = g.homeTeam ∧
      (applyDeltaToGame g d).awayTeam = g.awayTeam ∧
      (applyDeltaToGame g d).lastUpdated = d.lastUpdated ∧
      (d.homeOdds = none → (applyDeltaToGame g d).homeOdds = g.homeOdds) ∧
      (∀ v, d.homeOdds = some v → (applyDeltaToGame g d).homeOdds = v) ∧
      (d.awayOdds = none → (applyDeltaToGame g d).awayOdds = g.awayOdds) ∧
      (∀ v, d.awayOdds = some v → (applyDeltaToGame g d).awayOdds = v) ∧
      (d.drawOdds = none → (applyDeltaToGame g d).drawOdds = g.drawOdds) ∧
      (∀ v, d.drawOdds = some v → (applyDeltaToGame g d).drawOdds = v) ∧
      (d.homeScore = none → (applyDeltaToGame g d).homeScore = g.homeScore) ∧
      (∀ v, d.homeScore = some v → (applyDeltaToGame g d).homeScore = v) ∧
      (d.awayScore = none → (applyDeltaToGame g d).awayScore = g.awayScore) ∧
      (∀ v, d.awayScore = some v → (applyDeltaToGame g d).awayScore = v)) := by
  constructor
  · intro h
    simp [applyDelta, h]
  · intro g hg
    have happ : applyDelta games d = updateEntry games d.id (applyDeltaToGame g d) := by
      simp [applyDelta, hg]
    refine ⟨?_, ?_, rfl, rfl, rfl, rfl, ?_, ?_, ?_, ?_, ?_, ?_, ?_, ?_, ?_, ?_⟩
    · rw [happ]
      exact lookupGame_updateEntry_self games d.id _ g hg
    · intro k hk
      rw [happ]
      exact lookupGame_updateEntry_other games d.id _ k hk
    all_goals first
      | (intro h; simp [applyDeltaToGame, h])
      | (intro v h; simp [applyDeltaToGame, h])

/-- Witness for C8: on a two-game cache, a delta for game1 carrying only new
home odds updates exactly that entry — new home odds, home score kept — and
leaves the game2 entry untouched. -/
theorem c8_apply_delta_frame_witness :
    lookupGame (applyDelta c8Games c8D) c8D.id = some (applyDeltaToGame c8G1 c8D) ∧
    lookupGame (applyDelta c8Games c8D) "game2" = lookupGame c8Games "game2" ∧
    (applyDeltaToGame c8G1 c8D).homeOdds = 3 ∧
    (applyDeltaToGame c8G1 c8D).homeScore = c8G1.homeScore := by
  have h := (c8_apply_delta_frame c8Games c8D).2 c8G1 (by decide)
  exact ⟨h.1, h.2.1 "game2" (by decide),
    h.2.2.2.2.2.2.2.1 3 rfl,
    h.2.2.2.2.2.2.2.2.2.2.2.2.1 rfl⟩

/-- Claim C4.  A subscribe or unsubscribe request whose channel-id argument is
not an array is rejected before any state is read or written: the handler
returns the registry state completely unchanged (the same `socketSubscriptions`
map and rooms, for every connection) and emits exactly one request-scoped
error, addressed to the requesting socket only. -/
theorem c4_malformed_request_rejected (st : ServerState) (sid : String) :
    handleSubscribe st sid SubArg.malformed
        = some (st, [ServerEmit.errorTo sid "gameIds must be an array"]) ∧
    handleUnsubscribe st sid SubArg.malformed
        = some (st, [ServerEmit.errorTo sid "gameIds must be an array"]) :=
  ⟨rfl, rfl⟩

/-- Single-step progress and preservation: from a state satisfying the
strengthened invariant, every lifecycle-wellformed event is handled without a
crash and re-establishes the invariant. -/
theorem serverStep_progress (st : ServerState) (e : SEvent)
    (hInv : ServerInvStrong st) (he : eventOk st e = true) :
    ∃ st2 ems, serverStep st e = some (st2, ems) ∧ ServerInvStrong st2 := by
  cases e with
  | connection sid =>
    refine ⟨_, _, rfl, ?_, ?_⟩
    · have hnotmem : sid ∉ st.connected := by simpa [eventOk] using he
      exact List.nodup_cons.mpr ⟨hnotmem, hInv.1⟩
    · intro s hs
      rcases List.mem_cons.mp hs with h | h
      · subst h; simp
      · by_cases hks : s = sid
        · subst hks; simp
        · simpa [hks] using hInv.2 s h
  | subscribe sid arg =>
    have hc : sid ∈ st.connected := by simpa [eventOk] using he
    have hsub := hInv.2 sid hc
    cases arg with
    | malformed => exact ⟨st, _, rfl, hInv⟩
    | valid gameIds =>
      obtain ⟨subs, hsubs⟩ := Option.isSome_iff_exists.mp hsub
      refine ⟨{ st with
                rooms := gameIds.foldl (fun r g => roomJoin r g sid) st.rooms
                socketSubscriptions := fun k =>
                  if k = sid then some (gameIds.foldl setAdd subs)
                  else st.socketSubscriptions k },
              [ServerEmit.subscribedTo sid gameIds], ?_, hInv.1, ?_⟩
      · simp [serverStep, handleSubscribe, hsubs]
      · intro s hs
        by_cases hks : s = sid
        · subst hks; simp
        · simpa [hks] using hInv.2 s hs
  | unsubscribe sid arg =>
    have hc : sid ∈ st.connected := by simpa [eventOk] using he
    have hsub := hInv.2 sid hc
    cases arg with
    | malformed => exact ⟨st, _, rfl, hInv⟩
    | valid gameIds =>
      obtain ⟨subs, hsubs⟩ := Option.isSome_iff_exists.mp hsub
      refine ⟨{ st with
                rooms := gameIds.foldl (fun r g => roomLeave r g sid) st.rooms
                socketSubscriptions := fun k =>
                  if k = sid then some (gameIds.foldl List.erase subs)
                  else st.socketSubscriptions k },
              [], ?_, hInv.1, ?_⟩
      · simp [serverStep, handleUnsubscribe, hsubs]
      · intro s hs
        by_cases hks : s = sid
        · subst hks; simp
        · simpa [hks] using hInv.2 s hs
  | disconnect sid =>
    refine ⟨_, _, rfl, hInv.1.erase sid, ?_⟩
    intro s hs
    obtain ⟨hne, hmem⟩ := (hInv.1.mem_erase_iff).mp hs
    simpa [hne] using hInv.2 s hmem

/-- Trace-level soundness: from an invariant state, running any
lifecycle-wellformed trace never crashes and ends in an invariant state. -/
theorem runServer_ok (evs : List SEvent) : ∀ st, ServerInvStrong st →
    traceOk st evs = true →
    ∃ st2, runServer st evs = some st2 ∧ ServerInvStrong st2 := by
  induction evs with
  | nil => intro st h _; exact ⟨st, rfl, h⟩
  | cons e es ih =>
    intro st h ht
    simp only [traceOk, Bool.and_eq_true] at ht
    obtain ⟨st2, ems, hstep, h2⟩ := serverStep_progress st e h ht.1
    have hnext : serverNext st e = st2 := by simp [serverNext, hstep]
    obtain ⟨st3, hrun, h3⟩ := ih st2 h2 (hnext ▸ ht.2)
    exact ⟨st3, by simp [runServer, hstep, hrun], h3⟩

/-- Claim C10.  Along every socket-lifecycle-wellformed event trace from the
server's start state, every connected socket always has an entry in
`socketSubscriptions` — created by the connection handler, kept by
subscribe/unsubscribe, removed only on disconnect — so the subscribe and
unsubscribe handlers never dereference a missing subscription set (the run
never crashes) and the invariant holds in the final state. -/
theorem c10_socket_subscriptions_invariant (evs : List SEvent)
    (h : traceOk initServerState evs = true) :
    ∃ st2, runServer initServerState evs = some st2 ∧ ServerInv st2 := by
  have hinit : ServerInvStrong initServerState :=
    ⟨List.nodup_nil, fun s hs => by simp [initServerState] at hs⟩
  obtain ⟨st2, hrun, h2⟩ := runServer_ok evs initServerState hinit h
  exact ⟨st2, hrun, h2.2⟩

/-- Witness for C10: a connect, subscribe, unsubscribe, disconnect trace for
one socket is wellformed and runs without a crash. -/
theorem c10_socket_subscriptions_invariant_witness :
    ∃ st2, runServer initServerState
        [SEvent.connection "a", SEvent.subscribe "a" (SubArg.valid ["game1"]),
         SEvent.unsubscribe "a" (SubArg.valid ["game1"]), SEvent.disconnect "a"]
      = some st2 ∧ ServerInv st2 :=
  c10_socket_subscriptions_invariant _ (by rfl)

/-- Claim C5, counterexample.  On a successful push connection the handler
does reset the counter and send the subscription set, but its action list is
exactly the subscribe message: it contains no initial full-state fetch
request, refuting the claim that all three actions are performed. -/
theorem c5_counterexample :
    (onOpen c5St).1.reconnectAttempts = 0 ∧
    (onOpen c5St).2 = [ClientAction.wsSend (ClientOutMsg.subscribe c5St.subscribedGames)] ∧
    ((onOpen c5St).2.any isInitialFetchRequest) = false := by
  decide

/-- Claim C5, amended.  On every successful push connection the manager marks
the transport as WebSocket, resets the reconnect-failure counter to 0 and
sends the current subscription set over the new connection — and nothing
else: in particular it issues no initial full-state fetch request (only the
polling path fetches initial state explicitly). -/
theorem c5_on_open_behaviour (st : ClientState) :
    (onOpen st).1.connectionType = ConnType.websocket ∧
    (onOpen st).1.reconnectAttempts = 0 ∧
    (onOpen st).1.subscribedGames = st.subscribedGames ∧
    (onOpen st).1.games = st.games ∧
    (onOpen st).2 = [ClientAction.wsSend (ClientOutMsg.subscribe st.subscribedGames)] ∧
    ((onOpen st).2.any isInitialFetchRequest) = false :=
  ⟨rfl, rfl, rfl, rfl, rfl, rfl⟩

/-- Claim C7, evidence of the code bug.  The poll retry delay is computed as
`min(1000 * 2 ^ failures, 30000)` after the failure counter has been
incremented, so the first consecutive poll failure (counter going 0 to 1)
schedules the retry after 2000 ms — not the 1000 ms stated by the claim and
by the code's own inline comment. -/
theorem c7_first_poll_retry_delay :
    (clientStep c7PollingState CEvent.pollFailure).2
        = [ClientAction.schedulePollRetry 2000] ∧
    (clientStep c7PollingState CEvent.pollFailure).1.pollingFailures = 1 := by
  constructor <;> rfl
